import Mathlib

/-!
Verification of the pdf-combiner job/file services.

Shallow embedding of the job lifecycle, ownership and file-expiry logic of
the pdf-combiner backend (`backend/app/services/job_service.py`,
`file_service.py`, `tool_service.py`, `backend/app/workers/tasks.py`,
and the request schemas in `backend/app/schemas/schemas.py`).

Database rows become Lean structures, the database becomes a pair of lists,
SQLAlchemy queries become list filters, and each Python function becomes a
Lean function on the database state.  `datetime` values are modelled as
integer timestamps (seconds).  Python truthiness of optional values
(`if guest_token:`, `if error_message:`) is modelled explicitly.
-/

namespace PdfCombiner

/-- Job processing status (`models.JobStatus`). -/
inductive JobStatus where
  | pending
  | processing
  | completed
  | failed
  | cancelled
deriving DecidableEq, Repr

/-- Model of `JobStatus(status)` in Python: parse the enum value string; an unknown
string raises `ValueError`, modelled as `none`. -/
def JobStatus.parse : String → Option JobStatus := fun s =>
  if s = "pending" then some JobStatus.pending
  else if s = "processing" then some JobStatus.processing
  else if s = "completed" then some JobStatus.completed
  else if s = "failed" then some JobStatus.failed
  else if s = "cancelled" then some JobStatus.cancelled
  else none

/-- A row of the `jobs` table (`models.Job`), restricted to the columns the
services and worker read or write. -/
structure Job where
  job_id : String
  tool_name : String
  status : JobStatus
  user_id : Option Nat
  guest_token : Option String
  input_files_count : Nat
  output_file_id : Option Nat
  progress : Nat
  error_message : Option String
  processing_started_at : Option Int
  processing_completed_at : Option Int
  processing_time_seconds : Option Int
  created_at : Int
  updated_at : Int
  expires_at : Int
deriving DecidableEq, Repr

/-- A row of the `files` table (`models.File`), restricted to the columns the
services and worker read or write. -/
structure FileRec where
  id : Nat
  file_id : String
  original_filename : String
  stored_filename : String
  file_path : String
  file_size : Nat
  mime_type : String
  user_id : Option Nat
  guest_token : Option String
  is_input : Bool
  is_deleted : Bool
  download_count : Nat
  created_at : Int
  updated_at : Int
  expires_at : Int
deriving DecidableEq, Repr

/-- The metadata store: the `jobs` and `files` tables. -/
structure DB where
  jobs : List Job
  files : List FileRec
deriving DecidableEq, Repr

/-- Python truthiness of an optional string (`if guest_token:`):
present and non-empty. -/
def truthyStr : Option String → Bool
  | none => false
  | some s => !(s == "")

/-- Python truthiness of an optional integer (`if user_id:`):
present and non-zero. -/
def truthyNat : Option Nat → Bool
  | none => false
  | some n => !(n == 0)

/-- Python truthiness of an optional list (`if pages:`):
present and non-empty. -/
def truthyList {α : Type} : Option (List α) → Bool
  | none => false
  | some l => !(l.isEmpty)

/-- Model of `scalar_one_or_none()`: the single row of the result set, `none` when the
result set is empty (job/file external ids are unique, so the
multiple-rows error path is unreachable). -/
def scalarOneOrNone {α : Type} : List α → Option α
  | [x] => some x
  | _ => none

/-- The conditional owner filter of `JobService.get_job`
(`if guest_token: ... elif user_id: ...`): when neither credential is
truthy, **no** owner condition is added to the query. -/
def jobOwnerFilter (g : Option String) (u : Option Nat) (j : Job) : Bool :=
  if truthyStr g then j.guest_token == g
  else if truthyNat u then j.user_id == u
  else true

/-- The row set produced by the query of `JobService.get_job`:
`select(Job).where(Job.job_id == job_id)` plus the conditional owner
filter. -/
def jobQuery (db : DB) (jid : String) (g : Option String) (u : Option Nat) : List Job :=
  (db.jobs.filter (fun j => j.job_id == jid)).filter (jobOwnerFilter g u)

/-- Model of `JobService.get_job`. -/
def get_job (db : DB) (jid : String) (g : Option String) (u : Option Nat) : Option Job :=
  scalarOneOrNone (jobQuery db jid g u)

/-- Model of `schemas.JobStatusResponse`. -/
structure JobStatusResponse where
  job_id : String
  status : JobStatus
  progress : Nat
  result_url : Option String
  error_message : Option String
deriving DecidableEq, Repr

/-- The result url built by `JobService.get_job_status`:
`f"/api/v1/files/.../download"` interpolating the *numeric*
`output_file_id` column. -/
def downloadUrl (n : Nat) : String :=
  "/api/v1/files/" ++ toString n ++ "/download"

/-- Model of `JobService.get_job_status`. -/
def get_job_status (db : DB) (jid : String) (g : Option String) (u : Option Nat) :
    Option JobStatusResponse :=
  match get_job db jid g u with
  | none => none
  | some job =>
    let result_url :=
      if job.status = JobStatus.completed ∧ truthyNat job.output_file_id then
        some (downloadUrl (job.output_file_id.getD 0))
      else none
    some { job_id := job.job_id, status := job.status, progress := job.progress,
           result_url := result_url, error_message := job.error_message }

/-- Replace the first element satisfying `p` by its image under `f`
(an ORM mutation of the single fetched row). -/
def updateFirst {α : Type} (p : α → Bool) (f : α → α) : List α → List α
  | [] => []
  | x :: xs => if p x then f x :: xs else x :: updateFirst p f xs

/-- Model of `JobService.cancel_job`: fetch the job with the same owner-filtered
query, refuse unless its status is `pending` or `processing`, otherwise set
it to `cancelled` and stamp `updated_at`.  Returns the boolean result
together with the resulting database state. -/
def cancel_job (db : DB) (now : Int) (jid : String) (g : Option String) (u : Option Nat) :
    Bool × DB :=
  match get_job db jid g u with
  | none => (false, db)
  | some job =>
    if job.status = JobStatus.pending ∨ job.status = JobStatus.processing then
      (true,
       { db with
         jobs := updateFirst (fun j => j.job_id == jid && jobOwnerFilter g u j)
           (fun j => { j with status := JobStatus.cancelled, updated_at := now }) db.jobs })
    else (false, db)

/-- Model of `schemas.JobHistory`. -/
structure JobHistory where
  jobs : List Job
  total : Nat
  page : Nat
  page_size : Nat
  has_more : Bool
deriving Repr

/-- Model of `desc(Job.created_at)`: job `a` sorts before job `b` when its creation
time is not smaller. -/
def jobDescOrder (a b : Job) : Bool := b.created_at ≤ a.created_at

/-- Model of `JobService.get_job_history`: filter by owner, order by creation time
descending, count the whole result set, then apply
`offset((page-1)*page_size).limit(page_size)`. -/
def get_job_history (db : DB) (g : Option String) (u : Option Nat)
    (page page_size : Nat) : JobHistory :=
  let filtered := db.jobs.filter (jobOwnerFilter g u)
  let sorted := filtered.mergeSort jobDescOrder
  let total := sorted.length
  let offset := (page - 1) * page_size
  let jobs := (sorted.drop offset).take page_size
  { jobs := jobs, total := total, page := page, page_size := page_size,
    has_more := decide (offset + jobs.length < total) }

/-- The conditional owner filter of `FileService.get_file`, identical in
shape to the job one. -/
def fileOwnerFilter (g : Option String) (u : Option Nat) (f : FileRec) : Bool :=
  if truthyStr g then f.guest_token == g
  else if truthyNat u then f.user_id == u
  else true

/-- Model of `FileService.get_file`: `select(File).where(File.file_id == file_id,
File.is_deleted == False)` plus the conditional owner filter.  Note: no
expiry condition. -/
def get_file (db : DB) (fid : String) (g : Option String) (u : Option Nat) :
    Option FileRec :=
  scalarOneOrNone
    ((db.files.filter (fun f => f.file_id == fid && !f.is_deleted)).filter
      (fileOwnerFilter g u))

/-- Model of `FileService.get_file_download_path`: `fs` models `Path.exists()` on the
host filesystem, `now` models `datetime.utcnow()`. -/
def get_file_download_path (db : DB) (fs : String → Bool) (now : Int)
    (fid : String) (g : Option String) (u : Option Nat) : Option String :=
  match get_file db fid g u with
  | none => none
  | some f =>
    if f.expires_at < now then none
    else if !(fs f.file_path) then none
    else some f.file_path

/-- The periodic `cleanup_expired_files` task: tombstone every file with
`expires_at < now` that is not yet deleted (blob removal does not touch the
metadata modelled here beyond the flag). -/
def cleanup_expired_files (db : DB) (now : Int) : DB :=
  { db with
    files := db.files.map (fun f =>
      if f.expires_at < now && !f.is_deleted then { f with is_deleted := true } else f) }

/-- Worker helper `get_file_paths`: `db.query(File).filter(File.file_id.in_(
file_ids))` — no owner, deletion or expiry condition — then project the
paths. -/
def get_file_paths (db : DB) (fids : List String) : List String :=
  (db.files.filter (fun f => fids.contains f.file_id)).map (fun f => f.file_path)

/-- The row mutation performed by worker helper `update_job_status` on the
fetched job, given the parsed status.  `ofid` models the optional
`output_file_id` argument (always a non-empty digit string at the call
sites, so Python truthiness coincides with presence); `err` models the
optional `error_message` argument, guarded by string truthiness. -/
def applyUpdate (now : Int) (st : JobStatus) (progress : Nat) (ofid : Option Nat)
    (err : Option String) (j : Job) : Job :=
  let j1 := { j with status := st, progress := progress }
  let j2 := match ofid with
            | some n => { j1 with output_file_id := some n }
            | none => j1
  let j3 := if truthyStr err then { j2 with error_message := err } else j2
  let j4 := { j3 with updated_at := now }
  if st = JobStatus.completed then
    let j5 := { j4 with processing_completed_at := some now }
    match j5.processing_started_at with
    | some t0 => { j5 with processing_time_seconds := some (now - t0) }
    | none => j5
  else j4

/-- Worker helper `update_job_status`: parse the status string (an invalid
value raises and is swallowed by the handler, leaving the database
unchanged), fetch the first job with the given id, and apply the mutation.
There is no check of the job's current status. -/
def update_job_status (db : DB) (now : Int) (jid : String) (status : String)
    (progress : Nat) (ofid : Option Nat) (err : Option String) : DB :=
  match JobStatus.parse status with
  | none => db
  | some st =>
    { db with
      jobs := updateFirst (fun j => j.job_id == jid) (applyUpdate now st progress ofid err)
        db.jobs }

/-- Model of `db.query(Job).filter(Job.job_id == job_id).first()`. -/
def findJob (db : DB) (jid : String) : Option Job :=
  db.jobs.find? (fun j => j.job_id == jid)

/-- The environment-provided metadata of a produced output file: its fresh
uuid, names, path on disk, observed byte size and MIME type. -/
structure OutputFileMeta where
  file_id : String
  filename : String
  stored_filename : String
  file_path : String
  file_size : Nat
  mime_type : String
deriving DecidableEq, Repr

/-- The autoincrement primary key the database would assign to a new `files`
row. -/
def nextFileId (db : DB) : Nat := (db.files.map (fun f => f.id)).foldr max 0 + 1

/-- Worker helper `create_output_file`: look up the job (a missing job
raises `ValueError`, modelled as `none`), then insert one `files` row with
the owner copied from the job, `is_input=False` and a fresh expiry
`ttlExpiry`.  Returns the new row's numeric id (the Python code returns
`str(file.id)`). -/
def create_output_file (db : DB) (now ttlExpiry : Int) (jid : String)
    (meta : OutputFileMeta) : Option (DB × Nat) :=
  match findJob db jid with
  | none => none
  | some job =>
    let nid := nextFileId db
    let f : FileRec :=
      { id := nid, file_id := meta.file_id, original_filename := meta.filename,
        stored_filename := meta.stored_filename, file_path := meta.file_path,
        file_size := meta.file_size, mime_type := meta.mime_type,
        user_id := job.user_id, guest_token := job.guest_token,
        is_input := false, is_deleted := false, download_count := 0,
        created_at := now, updated_at := now, expires_at := ttlExpiry }
    some ({ db with files := db.files ++ [f] }, nid)

/-- The progress checkpoint of the merge loop,
`10 + int((i + 1) / n * 70)` (float truncation modelled as natural
division). -/
def progressCheckpoint (n i : Nat) : Nat := 10 + ((i + 1) * 70) / n

/-- The first `k` iterations of the merge loop's progress updates
(`update_job_status(job_id, "processing", progress)` for `i = 0 .. k-1`). -/
def runAppendUpdates (db : DB) (now : Int) (jid : String) (n : Nat) : Nat → DB
  | 0 => db
  | Nat.succ m =>
    update_job_status (runAppendUpdates db now jid n m) now jid "processing"
      (progressCheckpoint n m) none none

/-- How one execution of the merge task interacts with its environment:
either every fallible step succeeds and the transform produces an output
file described by `meta`, or an exception whose `str()` is `msg` is raised
after `k` completed loop iterations. -/
inductive MergeOutcome where
  | success (meta : OutputFileMeta)
  | failAfter (k : Nat) (msg : String)
deriving Repr

/-- Model of `merge_pdfs_task`: first status update to `processing`/10, the per-file
progress checkpoints, then either `create_output_file` followed by the
`completed`/100 update carrying the new file id, or — on any exception —
the `failed`/0 update carrying `str(e)`.  `ttlExpiry` is the expiry the
worker stamps on the output file. -/
def merge_pdfs_task_run (db : DB) (now ttlExpiry : Int) (jid : String)
    (fileIds : List String) (outcome : MergeOutcome) : DB :=
  let db1 := update_job_status db now jid "processing" 10 none none
  let n := (get_file_paths db1 fileIds).length
  match outcome with
  | MergeOutcome.failAfter k msg =>
    let db2 := runAppendUpdates db1 now jid n (min k n)
    update_job_status db2 now jid "failed" 0 none (some msg)
  | MergeOutcome.success meta =>
    let db2 := runAppendUpdates db1 now jid n n
    match create_output_file db2 now ttlExpiry jid meta with
    | none => update_job_status db2 now jid "failed" 0 none
        (some ("Job " ++ jid ++ " not found"))
    | some (db3, ofid) => update_job_status db3 now jid "completed" 100 (some ofid) none

/-- Text of `str(e)` for the `NameError` raised when `split_pdf_task` reaches
`update_job_status(job_id, "completed", 100, output_file_id)` with the
local variable `output_file_id` never assigned. -/
def nameErrorMsg : String := "name \u0027output_file_id\u0027 is not defined"

/-- Text of `str(e)` for the `IndexError` raised by `get_file_paths([file_id])[0]`
when the file id matches no row. -/
def indexErrorMsg : String := "list index out of range"

/-- Model of `split_pdf_task`, under the assumption that reading the referenced PDF
succeeds (the claim under study fixes a valid input PDF; page selection
affects only the produced bytes, not the metadata).  When
`split_type == "pages" and pages` is false, the local `output_file_id` is
never bound and line 136 raises `NameError`, which the handler converts
into a `failed`/0 update. -/
def split_pdf_task_run (db : DB) (now ttlExpiry : Int) (jid fileId splitType : String)
    (pages : Option (List Nat)) (meta : OutputFileMeta) : DB :=
  let db1 := update_job_status db now jid "processing" 10 none none
  match get_file_paths db1 [fileId] with
  | [] => update_job_status db1 now jid "failed" 0 none (some indexErrorMsg)
  | _ :: _ =>
    if splitType == "pages" && truthyList pages then
      match create_output_file db1 now ttlExpiry jid meta with
      | none => update_job_status db1 now jid "failed" 0 none
          (some ("Job " ++ jid ++ " not found"))
      | some (db2, ofid) => update_job_status db2 now jid "completed" 100 (some ofid) none
    else
      update_job_status db1 now jid "failed" 0 none (some nameErrorMsg)

/-- A fresh `jobs` row as built by `ToolService._create_job`. -/
def mk_job (now ttlExpiry : Int) (newJobId toolName : String) (g : Option String)
    (u : Option Nat) (count : Nat) : Job :=
  { job_id := newJobId, tool_name := toolName, status := JobStatus.pending,
    user_id := u, guest_token := g, input_files_count := count,
    output_file_id := none, progress := 0, error_message := none,
    processing_started_at := none, processing_completed_at := none,
    processing_time_seconds := none, created_at := now, updated_at := now,
    expires_at := ttlExpiry }

/-- The work item `merge_pdfs_task.delay(...)` places on the queue. -/
structure WorkItem where
  job_id : String
  file_ids : List String
  output_filename : String
deriving DecidableEq, Repr

/-- Model of `ToolService.merge_pdfs`: create the job row unconditionally (no lookup
of the referenced file ids whatsoever) and enqueue one work item. -/
def merge_pdfs (db : DB) (now ttlExpiry : Int) (newJobId : String)
    (fileIds : List String) (outName : String) (g : Option String) (u : Option Nat) :
    DB × Job × WorkItem :=
  let job := mk_job now ttlExpiry newJobId "pdf_merge" g u fileIds.length
  ({ db with jobs := db.jobs ++ [job] }, job,
   { job_id := newJobId, file_ids := fileIds, output_filename := outName })

/-- The request-body validation of `schemas.PDFMergeRequest`:
`files: List[str] = Field(..., min_items=2, max_items=50)`. -/
def validPDFMergeRequest (files : List String) : Bool :=
  2 ≤ files.length && files.length ≤ 50

/-- Model of the merge endpoint: pydantic rejects the request (`none`, HTTP
422, before the handler runs) unless the cardinality bound holds; otherwise
the handler calls `ToolService.merge_pdfs` with the guest token. -/
def merge_endpoint (db : DB) (now ttlExpiry : Int) (newJobId : String)
    (files : List String) (outName : String) (g : Option String) :
    Option (DB × Job × WorkItem) :=
  if validPDFMergeRequest files then
    some (merge_pdfs db now ttlExpiry newJobId files outName g none)
  else none

/-- The invariant claimed by P5: `output_file_id` is populated exactly on
completed jobs. -/
def jobInvariant (j : Job) : Prop :=
  j.output_file_id.isSome = true ↔ j.status = JobStatus.completed


/-! Helper lemmas about the embedded operations -/

theorem applyUpdate_job_id (now : Int) (st : JobStatus) (p : Nat) (ofid : Option Nat)
    (err : Option String) (j : Job) : (applyUpdate now st p ofid err j).job_id = j.job_id := by
  unfold applyUpdate
  cases ofid <;> cases hs : j.processing_started_at <;>
    by_cases he : truthyStr err <;> by_cases hc : st = JobStatus.completed <;>
    simp [he, hc, hs]

theorem applyUpdate_status (now : Int) (st : JobStatus) (p : Nat) (ofid : Option Nat)
    (err : Option String) (j : Job) : (applyUpdate now st p ofid err j).status = st := by
  unfold applyUpdate
  cases ofid <;> cases hs : j.processing_started_at <;>
    by_cases he : truthyStr err <;> by_cases hc : st = JobStatus.completed <;>
    simp [he, hc, hs]

theorem applyUpdate_progress (now : Int) (st : JobStatus) (p : Nat) (ofid : Option Nat)
    (err : Option String) (j : Job) : (applyUpdate now st p ofid err j).progress = p := by
  unfold applyUpdate
  cases ofid <;> cases hs : j.processing_started_at <;>
    by_cases he : truthyStr err <;> by_cases hc : st = JobStatus.completed <;>
    simp [he, hc, hs]

theorem applyUpdate_started (now : Int) (st : JobStatus) (p : Nat) (ofid : Option Nat)
    (err : Option String) (j : Job) :
    (applyUpdate now st p ofid err j).processing_started_at = j.processing_started_at := by
  unfold applyUpdate
  cases ofid <;> cases hs : j.processing_started_at <;>
    by_cases he : truthyStr err <;> by_cases hc : st = JobStatus.completed <;>
    simp [he, hc, hs]

theorem applyUpdate_output (now : Int) (st : JobStatus) (p : Nat) (ofid : Option Nat)
    (err : Option String) (j : Job) :
    (applyUpdate now st p ofid err j).output_file_id = ofid.or j.output_file_id := by
  unfold applyUpdate
  cases ofid <;> cases hs : j.processing_started_at <;>
    by_cases he : truthyStr err <;> by_cases hc : st = JobStatus.completed <;>
    simp [he, hc, hs, Option.or]

theorem applyUpdate_error (now : Int) (st : JobStatus) (p : Nat) (ofid : Option Nat)
    (err : Option String) (j : Job) :
    (applyUpdate now st p ofid err j).error_message =
      if truthyStr err then err else j.error_message := by
  unfold applyUpdate
  cases ofid <;> cases hs : j.processing_started_at <;>
    by_cases he : truthyStr err <;> by_cases hc : st = JobStatus.completed <;>
    simp [he, hc, hs]

theorem applyUpdate_completed_at (now : Int) (st : JobStatus) (p : Nat) (ofid : Option Nat)
    (err : Option String) (j : Job) :
    (applyUpdate now st p ofid err j).processing_completed_at =
      if st = JobStatus.completed then some now else j.processing_completed_at := by
  unfold applyUpdate
  cases ofid <;> cases hs : j.processing_started_at <;>
    by_cases he : truthyStr err <;> by_cases hc : st = JobStatus.completed <;>
    simp [he, hc, hs]

theorem applyUpdate_seconds (now : Int) (st : JobStatus) (p : Nat) (ofid : Option Nat)
    (err : Option String) (j : Job) :
    (applyUpdate now st p ofid err j).processing_time_seconds =
      if st = JobStatus.completed then
        match j.processing_started_at with
        | some t0 => some (now - t0)
        | none => j.processing_time_seconds
      else j.processing_time_seconds := by
  unfold applyUpdate
  cases ofid <;> cases hs : j.processing_started_at <;>
    by_cases he : truthyStr err <;> by_cases hc : st = JobStatus.completed <;>
    simp [he, hc, hs]

theorem find_updateFirst {α : Type} (p : α → Bool) (f : α → α)
    (hf : ∀ a, p a = true → p (f a) = true) (l : List α) :
    (updateFirst p f l).find? p = (l.find? p).map f := by
  induction l with
  | nil => rfl
  | cons x xs ih =>
    by_cases h : p x
    · simp [updateFirst, h, List.find?_cons_of_pos, hf x h]
    · simp [updateFirst, h, List.find?_cons_of_neg, ih]

theorem filter_updateFirst_singleton {α : Type} (p : α → Bool) (f : α → α)
    (hf : ∀ a, p a = true → p (f a) = true) (l : List α) (x : α)
    (hl : l.filter p = [x]) : (updateFirst p f l).filter p = [f x] := by
  induction l with
  | nil => simp at hl
  | cons a t ih =>
    by_cases h : p a
    · rw [List.filter_cons_of_pos h] at hl
      have hax : a = x := (List.cons_eq_cons.mp hl).1
      have hnil : t.filter p = [] := (List.cons_eq_cons.mp hl).2
      subst hax
      simp [updateFirst, h, List.filter_cons_of_pos (hf a h), hnil]
    · rw [List.filter_cons_of_neg h] at hl
      simp [updateFirst, h, List.filter_cons_of_neg, ih hl]

theorem scalarOneOrNone_mem {α : Type} {l : List α} {x : α}
    (h : scalarOneOrNone l = some x) : x ∈ l := by
  match l, h with
  | [y], h => simp [scalarOneOrNone] at h; simp [h]

theorem get_job_of_query_nil {db : DB} {jid : String} {g : Option String} {u : Option Nat}
    (h : jobQuery db jid g u = []) : get_job db jid g u = none := by
  unfold get_job
  rw [h]
  rfl

theorem update_job_status_files (db : DB) (now : Int) (jid s : String) (p : Nat)
    (ofid : Option Nat) (err : Option String) :
    (update_job_status db now jid s p ofid err).files = db.files := by
  unfold update_job_status
  rcases h : JobStatus.parse s with _ | st <;> simp [h]

theorem findJob_update (db : DB) (now : Int) (jid s : String) (st : JobStatus) (p : Nat)
    (ofid : Option Nat) (err : Option String) (hs : JobStatus.parse s = some st) :
    findJob (update_job_status db now jid s p ofid err) jid =
      (findJob db jid).map (applyUpdate now st p ofid err) := by
  unfold update_job_status findJob
  rw [hs]
  exact find_updateFirst _ _ (fun a ha => by rw [applyUpdate_job_id]; exact ha) db.jobs

/-! Section C1 — ownership isolation -/

/-- A concrete guest-owned pending job. -/
def exJobC1 : Job :=
  { job_id := "job-1", tool_name := "pdf_merge", status := JobStatus.pending,
    user_id := none, guest_token := some "guest-A", input_files_count := 2,
    output_file_id := none, progress := 0, error_message := none,
    processing_started_at := none, processing_completed_at := none,
    processing_time_seconds := none, created_at := 0, updated_at := 0, expires_at := 3600 }

def exDBC1 : DB := { jobs := [exJobC1], files := [] }

/-- Claim C1, counterexample:  The claim says a lookup presenting *no
credential at all* returns the same result as a lookup of a nonexistent
job id.  It does not: `get_job` with neither a guest token nor a user id
applies no owner filter and returns the guest-owned job itself, while the
nonexistent-id lookup returns `none`. -/
theorem c1_counterexample :
    get_job exDBC1 "job-1" none none = some exJobC1 ∧
    get_job exDBC1 "missing" none none = none := by
  exact ⟨rfl, rfl⟩

/-- Claim C1, amended:  For every job owned by A, a lookup presenting a
*non-empty different* guest token, or a *non-zero different* user id,
returns `none`, exactly like a lookup of a nonexistent job id (wrong-owner
lookups with a credential are indistinguishable from missing jobs).  The
no-credential case is excluded: it returns the job (see the
counterexample). -/
theorem c1_amended (db : DB) (jid missingId tB : String) (uB : Nat)
    (htB : tB ≠ "") (huB : uB ≠ 0)
    (hg : ∀ j ∈ db.jobs, j.job_id = jid → j.guest_token ≠ some tB)
    (hu : ∀ j ∈ db.jobs, j.job_id = jid → j.user_id ≠ some uB)
    (hmiss : ∀ j ∈ db.jobs, j.job_id ≠ missingId) :
    get_job db jid (some tB) none = none ∧
    get_job db jid none (some uB) = none ∧
    get_job db missingId (some tB) none = none ∧
    get_job db missingId none (some uB) = none := by
  have hgT : truthyStr (some tB) = true := by simp [truthyStr, htB]
  have huT : truthyNat (some uB) = true := by simp [truthyNat, huB]
  have hmissNil : db.jobs.filter (fun j => j.job_id == missingId) = [] := by
    rw [List.filter_eq_nil_iff]
    intro j hj
    simpa using hmiss j hj
  refine ⟨?_, ?_, ?_, ?_⟩
  · apply get_job_of_query_nil
    unfold jobQuery
    rw [List.filter_eq_nil_iff]
    intro j hj
    rcases List.mem_filter.mp hj with ⟨hmem, hid⟩
    have hid2 : j.job_id = jid := by simpa using hid
    simp [jobOwnerFilter, hgT, hg j hmem hid2]
  · apply get_job_of_query_nil
    unfold jobQuery
    rw [List.filter_eq_nil_iff]
    intro j hj
    rcases List.mem_filter.mp hj with ⟨hmem, hid⟩
    have hid2 : j.job_id = jid := by simpa using hid
    simp [jobOwnerFilter, truthyStr, huT, hu j hmem hid2]
  · apply get_job_of_query_nil
    unfold jobQuery
    rw [hmissNil]
    rfl
  · apply get_job_of_query_nil
    unfold jobQuery
    rw [hmissNil]
    rfl

/-- Claim C1, amended, witness:  The amended statement applied to a concrete
one-job database and concrete foreign credentials. -/
theorem c1_amended_witness :
    get_job exDBC1 "job-1" (some "guest-B") none = none ∧
    get_job exDBC1 "job-1" none (some 9) = none ∧
    get_job exDBC1 "nope" (some "guest-B") none = none ∧
    get_job exDBC1 "nope" none (some 9) = none := by
  exact c1_amended exDBC1 "job-1" "nope" "guest-B" 9 (by decide) (by decide)
    (by intro j hj h1; simp [exDBC1] at hj; simp [hj, exJobC1])
    (by intro j hj h1; simp [exDBC1] at hj; simp [hj, exJobC1])
    (by intro j hj; simp [exDBC1] at hj; simp [hj, exJobC1])

/-! Section C2 — terminal immutability -/

def exJobC2 : Job := { exJobC1 with job_id := "job-2", status := JobStatus.cancelled }

def exDBC2 : DB := { jobs := [exJobC2], files := [] }

/-- Claim C2, counterexample:  A job whose status is the terminal
`cancelled` is silently moved to `completed` by the worker write path
`update_job_status` (as a duplicate task delivery or late finalization
would do): no write path out of a terminal state is rejected there. -/
theorem c2_counterexample :
    exJobC2.status = JobStatus.cancelled ∧
    (findJob (update_job_status exDBC2 5 "job-2" "completed" 100 (some 7) none)
        "job-2").map Job.status = some JobStatus.completed := by
  exact ⟨rfl, rfl⟩

/-- Claim C2, amended:  Cancellation respects terminal states: `cancel_job`
on a job in `completed`, `failed` or `cancelled` returns `false` and leaves
the database unchanged.  The worker write path does not: `update_job_status`
unconditionally applies any parsable status to the first job with the given
id — including a job currently in a terminal state — so duplicate task
delivery or late finalization rewrites terminal statuses. -/
theorem c2_amended (db : DB) (now : Int) (jid : String) (g : Option String)
    (u : Option Nat) (j : Job) (hj : get_job db jid g u = some j)
    (hterm : j.status = JobStatus.completed ∨ j.status = JobStatus.failed ∨
      j.status = JobStatus.cancelled) :
    cancel_job db now jid g u = (false, db) ∧
    ∀ (s : String) (st : JobStatus) (p : Nat) (ofid : Option Nat)
      (err : Option String) (j0 : Job),
      JobStatus.parse s = some st → findJob db jid = some j0 →
        findJob (update_job_status db now jid s p ofid err) jid =
          some (applyUpdate now st p ofid err j0) ∧
        (applyUpdate now st p ofid err j0).status = st := by
  constructor
  · have hnt : ¬(j.status = JobStatus.pending ∨ j.status = JobStatus.processing) := by
      rcases hterm with h | h | h <;> simp [h]
    unfold cancel_job
    rw [hj]
    simp [hnt]
  · intro s st p ofid err j0 hs hj0
    refine ⟨?_, applyUpdate_status now st p ofid err j0⟩
    rw [findJob_update db now jid s st p ofid err hs, hj0]
    rfl

/-- Claim C2, amended, witness:  The amended statement applied to a concrete
cancelled job: cancel is refused, while a `completed` write goes through. -/
theorem c2_amended_witness :
    cancel_job exDBC2 5 "job-2" (some "guest-A") none = (false, exDBC2) ∧
    findJob (update_job_status exDBC2 5 "job-2" "completed" 100 (some 7) none)
        "job-2" = some (applyUpdate 5 JobStatus.completed 100 (some 7) none exJobC2) := by
  have h := c2_amended exDBC2 5 "job-2" (some "guest-A") none exJobC2 rfl
    (Or.inr (Or.inr rfl))
  exact ⟨h.1, (h.2 "completed" JobStatus.completed 100 (some 7) none exJobC2 rfl rfl).1⟩


/-! Section C3 — output exclusivity -/

theorem scalarOneOrNone_eq_some {α : Type} {l : List α} {x : α}
    (h : scalarOneOrNone l = some x) : l = [x] := by
  cases l with
  | nil => simp [scalarOneOrNone] at h
  | cons a t =>
    cases t with
    | nil =>
      simp [scalarOneOrNone] at h
      simp [h]
    | cons b t2 => simp [scalarOneOrNone] at h

/-- The composed filter of the `get_job` query as a single predicate. -/
theorem jobQuery_eq_filter (db : DB) (jid : String) (g : Option String) (u : Option Nat) :
    jobQuery db jid g u =
      db.jobs.filter (fun j => j.job_id == jid && jobOwnerFilter g u j) := by
  unfold jobQuery
  rw [List.filter_filter]
  apply List.filter_congr
  intro a ha
  rw [Bool.and_comm]

def exFileC3 : FileRec :=
  { id := 7, file_id := "f-out", original_filename := "merged.pdf",
    stored_filename := "merged.pdf", file_path := "/data/uploads/merged.pdf",
    file_size := 1000, mime_type := "application/pdf", user_id := none,
    guest_token := some "guest-A", is_input := false, is_deleted := false,
    download_count := 0, created_at := 1, updated_at := 1, expires_at := 3600 }

def exJobC3 : Job :=
  { exJobC1 with
    job_id := "job-3"
    status := JobStatus.completed
    output_file_id := some 7
    progress := 100 }

def exDBC3 : DB := { jobs := [exJobC3], files := [exFileC3] }

/-- Claim C3, counterexample:  Two failures of the claim on a completed job
whose output file row has numeric id 7 and external id `"f-out"`:
(1) a duplicate delivery's first worker write (`processing`/10) leaves
`output_file_id` set while the status is no longer `Completed`, breaking
the if-and-only-if; (2) the polling response's result reference is built
from the *numeric* id (`/api/v1/files/7/download`) while file lookup is
keyed by the textual `file_id`, so the reference does not resolve to the
output file's download handle (`get_file` at `"7"` is `none`; the real
handle key is `"f-out"`). -/
theorem c3_counterexample :
    ((findJob (update_job_status exDBC3 9 "job-3" "processing" 10 none none) "job-3").map
      (fun j => (j.status, j.output_file_id)) = some (JobStatus.processing, some 7)) ∧
    ((get_job_status exDBC3 "job-3" (some "guest-A") none).bind
      JobStatusResponse.result_url = some "/api/v1/files/7/download") ∧
    get_file exDBC3 "7" (some "guest-A") none = none ∧
    get_file exDBC3 "f-out" (some "guest-A") none = some exFileC3 := by
  refine ⟨rfl, rfl, rfl, rfl⟩

/-- Claim C3, amended:  For a job whose `output_file_id` is not yet set (as
throughout a single task execution started on a fresh `Pending` job), every
write the worker issues — a progress write (`processing`, no output id), a
failure write (`failed`, no output id), or the completion write
(`completed` with a fresh non-zero output id) — leaves `output_file_id`
set if and only if the status is `Completed`; ids minted by
`create_output_file` are never zero; and the polling response carries a
`result_url` exactly when the looked-up job is `Completed` with a truthy
`output_file_id`, that url being the download route of the *numeric* id
(which file lookup, keyed by the textual file id, does not resolve — see
the counterexample). -/
theorem c3_amended (now : Int) (j : Job) (hout : j.output_file_id = none) :
    (∀ p, jobInvariant (applyUpdate now JobStatus.processing p none none j)) ∧
    (∀ m, jobInvariant (applyUpdate now JobStatus.failed 0 none (some m) j)) ∧
    (∀ n, n ≠ 0 → jobInvariant (applyUpdate now JobStatus.completed 100 (some n) none j)) ∧
    (∀ (db : DB) (ttlE : Int) (jid : String) (meta : OutputFileMeta) (res : DB × Nat),
      create_output_file db now ttlE jid meta = some res → res.2 ≠ 0) ∧
    (∀ (db : DB) (jid : String) (g : Option String) (u : Option Nat)
      (r : JobStatusResponse), get_job_status db jid g u = some r →
      (r.result_url.isSome = true ↔ ∃ j2, get_job db jid g u = some j2 ∧
        j2.status = JobStatus.completed ∧ truthyNat j2.output_file_id = true)) ∧
    (∀ (db : DB) (jid : String) (g : Option String) (u : Option Nat) (j2 : Job) (n : Nat),
      get_job db jid g u = some j2 → j2.status = JobStatus.completed →
      j2.output_file_id = some n → n ≠ 0 →
      get_job_status db jid g u = some
        { job_id := j2.job_id, status := j2.status, progress := j2.progress,
          result_url := some (downloadUrl n), error_message := j2.error_message }) := by
  refine ⟨?_, ?_, ?_, ?_, ?_, ?_⟩
  · intro p
    unfold jobInvariant
    rw [applyUpdate_output, applyUpdate_status]
    simp [Option.or, hout]
  · intro m
    unfold jobInvariant
    rw [applyUpdate_output, applyUpdate_status]
    simp [Option.or, hout]
  · intro n hn
    unfold jobInvariant
    rw [applyUpdate_output, applyUpdate_status]
    simp [Option.or]
  · intro db ttlE jid meta res hres
    unfold create_output_file at hres
    rcases hfind : findJob db jid with _ | job
    · rw [hfind] at hres
      simp at hres
    · rw [hfind] at hres
      simp at hres
      rw [← hres]
      simp [nextFileId]
  · intro db jid g u r hr
    unfold get_job_status at hr
    rcases hq : get_job db jid g u with _ | j2
    · rw [hq] at hr
      simp at hr
    · rw [hq] at hr
      simp at hr
      by_cases hc : j2.status = JobStatus.completed ∧ truthyNat j2.output_file_id = true
      · rw [← hr]
        constructor
        · intro _
          exact ⟨j2, rfl, hc⟩
        · intro _
          simp [hc]
      · rw [← hr]
        constructor
        · intro habs
          simp [hc] at habs
        · rintro ⟨j3, hj3, h1, h2⟩
          cases hj3
          exact absurd ⟨h1, h2⟩ hc
  · intro db jid g u j2 n hq hst hofid hn
    have hc : j2.status = JobStatus.completed ∧ truthyNat j2.output_file_id = true := by
      refine ⟨hst, ?_⟩
      rw [hofid]
      simp [truthyNat, hn]
    unfold get_job_status
    rw [hq]
    dsimp only
    rw [if_pos hc, hofid]
    rfl

/-- Claim C3, amended, witness:  The amended statement applied to the fresh
pending job of C1 and to the concrete completed-job database of the
counterexample. -/
theorem c3_amended_witness :
    jobInvariant (applyUpdate 9 JobStatus.processing 10 none none exJobC1) ∧
    jobInvariant (applyUpdate 9 JobStatus.failed 0 none (some "boom") exJobC1) ∧
    jobInvariant (applyUpdate 9 JobStatus.completed 100 (some 7) none exJobC1) ∧
    get_job_status exDBC3 "job-3" (some "guest-A") none = some
      { job_id := exJobC3.job_id, status := exJobC3.status, progress := exJobC3.progress,
        result_url := some (downloadUrl 7), error_message := exJobC3.error_message } := by
  have h := c3_amended 9 exJobC1 rfl
  exact ⟨h.1 10, h.2.1 "boom", h.2.2.1 7 (by decide),
    h.2.2.2.2.2 exDBC3 "job-3" (some "guest-A") none exJobC3 7 rfl rfl rfl (by decide)⟩

/-! Section C4 — submission validation -/

def exDBC4 : DB := { jobs := [], files := [] }

/-- Claim C4, counterexample:  A merge submission whose two file ids exist
nowhere (the database is empty, so they are neither owned by the caller
nor by anyone) is *not* rejected: the endpoint accepts it, creates a
`Pending` job row and enqueues a work item. -/
theorem c4_counterexample :
    get_file exDBC4 "ghost-1" (some "guest-A") none = none ∧
    get_file exDBC4 "ghost-2" (some "guest-A") none = none ∧
    merge_endpoint exDBC4 0 3600 "job-4" ["ghost-1", "ghost-2"] "merged.pdf"
        (some "guest-A") =
      some ({ jobs := [mk_job 0 3600 "job-4" "pdf_merge" (some "guest-A") none 2],
              files := [] },
            mk_job 0 3600 "job-4" "pdf_merge" (some "guest-A") none 2,
            { job_id := "job-4", file_ids := ["ghost-1", "ghost-2"],
              output_filename := "merged.pdf" }) ∧
    (mk_job 0 3600 "job-4" "pdf_merge" (some "guest-A") none 2).status =
      JobStatus.pending := by
  refine ⟨rfl, rfl, rfl, rfl⟩

/-- Claim C4, amended:  Cardinality is validated synchronously: a merge
request with fewer than 2 or more than 50 file ids is rejected by the
request schema before any job row is created or work item enqueued.  But
the referenced file ids themselves are never validated: for any list
within the cardinality bound — whether its ids exist, belong to the
caller, or are expired/deleted — exactly one `Pending` job row is created
and exactly one work item is enqueued, with the files table untouched. -/
theorem c4_amended (db : DB) (now ttlE : Int) (njid : String) (files : List String)
    (outName : String) (g : Option String) :
    (files.length < 2 ∨ 50 < files.length →
      merge_endpoint db now ttlE njid files outName g = none) ∧
    (2 ≤ files.length → files.length ≤ 50 →
      merge_endpoint db now ttlE njid files outName g =
        some ({ db with
                jobs := db.jobs ++ [mk_job now ttlE njid "pdf_merge" g none files.length] },
              mk_job now ttlE njid "pdf_merge" g none files.length,
              { job_id := njid, file_ids := files, output_filename := outName })) := by
  constructor
  · intro h
    have hv : validPDFMergeRequest files = false := by
      simp [validPDFMergeRequest]
      omega
    simp [merge_endpoint, hv]
  · intro h2 h50
    have hv : validPDFMergeRequest files = true := by
      simp [validPDFMergeRequest]
      omega
    simp [merge_endpoint, hv, merge_pdfs]

/-- Claim C4, amended, witness:  Concrete instances of both halves: a
one-element list is rejected with no job created; a two-element list of
nonexistent ids is accepted. -/
theorem c4_amended_witness :
    merge_endpoint exDBC4 0 3600 "job-4" ["only-one"] "merged.pdf" (some "guest-A") =
      none ∧
    merge_endpoint exDBC4 0 3600 "job-4" ["ghost-1", "ghost-2"] "merged.pdf"
        (some "guest-A") =
      some ({ jobs := [mk_job 0 3600 "job-4" "pdf_merge" (some "guest-A") none 2],
              files := [] },
            mk_job 0 3600 "job-4" "pdf_merge" (some "guest-A") none 2,
            { job_id := "job-4", file_ids := ["ghost-1", "ghost-2"],
              output_filename := "merged.pdf" }) := by
  have h1 := (c4_amended exDBC4 0 3600 "job-4" ["only-one"] "merged.pdf"
    (some "guest-A")).1 (Or.inl (by decide))
  have h2 := (c4_amended exDBC4 0 3600 "job-4" ["ghost-1", "ghost-2"] "merged.pdf"
    (some "guest-A")).2 (by decide) (by decide)
  exact ⟨h1, h2⟩

/-! Section C5 — expiry visibility -/

def exFileC5 : FileRec :=
  { exFileC3 with id := 1, file_id := "f-exp", is_input := true, expires_at := 10 }

def exDBC5 : DB := { jobs := [], files := [exFileC5] }

/-- Claim C5, counterexample:  At time 50 the file expired at time 10 and not
yet swept (`is_deleted = false`) is still returned by the consumer-facing
metadata lookup `get_file` — it does not behave as not-found — while
download-path resolution correctly hides it. -/
theorem c5_counterexample :
    exFileC5.expires_at < 50 ∧ exFileC5.is_deleted = false ∧
    get_file exDBC5 "f-exp" (some "guest-A") none = some exFileC5 ∧
    get_file_download_path exDBC5 (fun _ => true) 50 "f-exp" (some "guest-A") none =
      none := by
  refine ⟨by decide, rfl, rfl, rfl⟩

/-- Claim C5, amended:  Download-path resolution behaves as not-found for
every expired file, regardless of the tombstone flag, of whether the
sweeper has run, and of the blob's presence on disk.  The metadata lookup,
however, hides only tombstoned files: any file it returns is merely
not-deleted (it may be expired — see the counterexample), and it returns
not-found whenever every row with the requested id is tombstoned. -/
theorem c5_amended (db : DB) (fs : String → Bool) (now : Int) (fid : String)
    (g : Option String) (u : Option Nat) :
    (∀ f, get_file db fid g u = some f → f.expires_at < now →
      get_file_download_path db fs now fid g u = none) ∧
    (∀ f, get_file db fid g u = some f → f.is_deleted = false) ∧
    ((∀ f ∈ db.files, f.file_id = fid → f.is_deleted = true) →
      get_file db fid g u = none) := by
  refine ⟨?_, ?_, ?_⟩
  · intro f hf hexp
    unfold get_file_download_path
    rw [hf]
    simp [hexp]
  · intro f hf
    have hmem := scalarOneOrNone_mem hf
    rcases List.mem_filter.mp hmem with ⟨hmem1, _⟩
    rcases List.mem_filter.mp hmem1 with ⟨_, hcond⟩
    simp at hcond
    exact hcond.2
  · intro hall
    unfold get_file
    have hnil : db.files.filter (fun f => f.file_id == fid && !f.is_deleted) = [] := by
      rw [List.filter_eq_nil_iff]
      intro f hf
      simp
      intro hid
      exact hall f hf hid
    rw [hnil]
    rfl

/-- Claim C5, amended, witness:  The amended statement applied to the
concrete expired file of the counterexample. -/
theorem c5_amended_witness :
    get_file_download_path exDBC5 (fun _ => true) 50 "f-exp" (some "guest-A") none =
      none ∧
    exFileC5.is_deleted = false := by
  have h := c5_amended exDBC5 (fun _ => true) 50 "f-exp" (some "guest-A") none
  exact ⟨h.1 exFileC5 rfl (by decide), h.2.1 exFileC5 rfl⟩

/-! Section C6 — cancel semantics -/

/-- Cancelling mutates the job fetched by the owner-scoped query; the
updated row is still returned by the same query afterwards. -/
theorem get_job_after_cancel (db : DB) (now : Int) (jid : String) (g : Option String)
    (u : Option Nat) (j : Job) (hj : get_job db jid g u = some j)
    (hok : j.status = JobStatus.pending ∨ j.status = JobStatus.processing) :
    get_job (cancel_job db now jid g u).2 jid g u =
      some { j with status := JobStatus.cancelled, updated_at := now } := by
  have hq : db.jobs.filter (fun x => x.job_id == jid && jobOwnerFilter g u x) = [j] := by
    have h1 := scalarOneOrNone_eq_some hj
    rwa [jobQuery_eq_filter] at h1
  unfold cancel_job
  rw [hj]
  dsimp only
  rw [if_pos hok]
  unfold get_job
  rw [jobQuery_eq_filter]
  dsimp only
  have hfilter := filter_updateFirst_singleton
    (fun x => x.job_id == jid && jobOwnerFilter g u x)
    (fun x => { x with status := JobStatus.cancelled, updated_at := now })
    (fun a ha => ha) db.jobs j hq
  rw [hfilter]
  rfl

/-- Claim C6:  `cancel_job(job_id, owner)` returns `true` — and then moves
the job to `Cancelled` with a fresh `updated_at` — exactly when the
owner-scoped lookup finds the job and its status is `Pending` or
`Processing`; in every other case (missing job, wrong owner, already
terminal) it returns `false` and leaves the database unchanged, and in
particular a second cancel of a just-cancelled job returns `false`. -/
theorem c6_cancel_contract (db : DB) (now : Int) (jid : String) (g : Option String)
    (u : Option Nat) :
    ((cancel_job db now jid g u).1 = true ↔
      ∃ j, get_job db jid g u = some j ∧
        (j.status = JobStatus.pending ∨ j.status = JobStatus.processing)) ∧
    ((cancel_job db now jid g u).1 = false → (cancel_job db now jid g u).2 = db) ∧
    (∀ j, get_job db jid g u = some j →
      (j.status = JobStatus.pending ∨ j.status = JobStatus.processing) →
      get_job (cancel_job db now jid g u).2 jid g u =
        some { j with status := JobStatus.cancelled, updated_at := now }) ∧
    (∀ j, get_job db jid g u = some j →
      (j.status = JobStatus.pending ∨ j.status = JobStatus.processing) →
      ∀ now2, (cancel_job (cancel_job db now jid g u).2 now2 jid g u).1 = false) := by
  refine ⟨?_, ?_, fun j hj hok => get_job_after_cancel db now jid g u j hj hok, ?_⟩
  · constructor
    · intro htrue
      rcases hq : get_job db jid g u with _ | j
      · unfold cancel_job at htrue
        rw [hq] at htrue
        simp at htrue
      · by_cases hok : j.status = JobStatus.pending ∨ j.status = JobStatus.processing
        · exact ⟨j, rfl, hok⟩
        · unfold cancel_job at htrue
          rw [hq] at htrue
          simp [hok] at htrue
    · rintro ⟨j, hj, hok⟩
      unfold cancel_job
      rw [hj]
      simp [hok]
  · intro hfalse
    rcases hq : get_job db jid g u with _ | j
    · unfold cancel_job
      rw [hq]
    · by_cases hok : j.status = JobStatus.pending ∨ j.status = JobStatus.processing
      · unfold cancel_job at hfalse
        rw [hq] at hfalse
        simp [hok] at hfalse
      · unfold cancel_job
        rw [hq]
        simp [hok]
  · intro j hj hok now2
    have h3 := get_job_after_cancel db now jid g u j hj hok
    generalize hdb2 : (cancel_job db now jid g u).2 = db2 at h3
    unfold cancel_job
    rw [h3]
    dsimp only
    simp

/-- Claim C6, witness:  Cancel of a concrete pending guest job: first cancel
succeeds and the job becomes `Cancelled` with the new timestamp; a second
cancel returns `false`. -/
theorem c6_cancel_contract_witness :
    (cancel_job exDBC1 5 "job-1" (some "guest-A") none).1 = true ∧
    get_job (cancel_job exDBC1 5 "job-1" (some "guest-A") none).2 "job-1"
        (some "guest-A") none =
      some { exJobC1 with status := JobStatus.cancelled, updated_at := 5 } ∧
    (cancel_job (cancel_job exDBC1 5 "job-1" (some "guest-A") none).2 8 "job-1"
        (some "guest-A") none).1 = false := by
  have h := c6_cancel_contract exDBC1 5 "job-1" (some "guest-A") none
  exact ⟨h.1.mpr ⟨exJobC1, rfl, Or.inl rfl⟩, h.2.2.1 exJobC1 rfl (Or.inl rfl),
    h.2.2.2 exJobC1 rfl (Or.inl rfl) 8⟩


/-! Worker-task machinery: chained update lemmas -/

theorem runAppendUpdates_files (db : DB) (now : Int) (jid : String) (n k : Nat) :
    (runAppendUpdates db now jid n k).files = db.files := by
  induction k with
  | zero => rfl
  | succ m ih =>
    rw [runAppendUpdates, update_job_status_files]
    exact ih

/-- Across the merge loop's progress updates the job stays findable and its
error message, output id, start stamp and duration are untouched. -/
theorem runAppendUpdates_findJob (db : DB) (now : Int) (jid : String) (n k : Nat)
    (j : Job) (hj : findJob db jid = some j) :
    ∃ jk, findJob (runAppendUpdates db now jid n k) jid = some jk ∧
      jk.error_message = j.error_message ∧
      jk.output_file_id = j.output_file_id ∧
      jk.processing_started_at = j.processing_started_at ∧
      jk.processing_time_seconds = j.processing_time_seconds := by
  induction k with
  | zero => exact ⟨j, hj, rfl, rfl, rfl, rfl⟩
  | succ m ih =>
    obtain ⟨jk, hfind, he, ho, hs, hsec⟩ := ih
    refine ⟨applyUpdate now JobStatus.processing (progressCheckpoint n m) none none jk,
      ?_, ?_, ?_, ?_, ?_⟩
    · rw [runAppendUpdates,
        findJob_update _ now jid "processing" JobStatus.processing _ none none rfl, hfind]
      rfl
    · rw [applyUpdate_error]
      simpa [truthyStr] using he
    · rw [applyUpdate_output]
      simpa [Option.or] using ho
    · rw [applyUpdate_started]
      exact hs
    · rw [applyUpdate_seconds]
      simpa using hsec

theorem findJob_congr {db1 db2 : DB} (h : db1.jobs = db2.jobs) (jid : String) :
    findJob db1 jid = findJob db2 jid := by
  unfold findJob
  rw [h]

theorem create_output_file_some (db : DB) (now ttlE : Int) (jid : String)
    (meta : OutputFileMeta) (j : Job) (hj : findJob db jid = some j) :
    ∃ dbf, create_output_file db now ttlE jid meta = some (dbf, nextFileId db) ∧
      dbf.jobs = db.jobs := by
  unfold create_output_file
  rw [hj]
  exact ⟨_, rfl, rfl⟩

/-! Section C7 — failure finalization -/

/-- Claim C7, counterexample:  A merge transform failure whose exception has
an empty message — `str(e) == ""`, e.g. a bare `raise Exception()` — ends
the job `Failed` with `error_message` still unset (`None`), because
`update_job_status` only records a truthy message.  The claim's "non-empty
error_message" does not hold for this failure.  (No output file row is
created, as the files table stays empty.) -/
theorem c7_counterexample :
    (findJob (merge_pdfs_task_run exDBC1 3 3600 "job-1" ["f1", "f2"]
        (MergeOutcome.failAfter 0 "")) "job-1").map
      (fun j => (j.status, j.error_message)) =
      some (JobStatus.failed, (none : Option String)) ∧
    (merge_pdfs_task_run exDBC1 3 3600 "job-1" ["f1", "f2"]
        (MergeOutcome.failAfter 0 "")).files = [] := by
  exact ⟨rfl, rfl⟩

/-- Claim C7, amended:  When the merge transform raises after any number of
completed steps, the worker finalizes the job as `Failed` with progress
reset to 0 (never reported as 100), creates no output file row, leaves
`output_file_id` untouched — and records the exception text as
`error_message` exactly when that text is non-empty; an exception with an
empty message leaves `error_message` unset. -/
theorem c7_amended (db : DB) (now ttlE : Int) (jid : String) (fileIds : List String)
    (k : Nat) (msg : String) (j : Job) (hj : findJob db jid = some j)
    (herr : j.error_message = none) :
    (merge_pdfs_task_run db now ttlE jid fileIds (MergeOutcome.failAfter k msg)).files =
      db.files ∧
    ∃ j2, findJob (merge_pdfs_task_run db now ttlE jid fileIds
        (MergeOutcome.failAfter k msg)) jid = some j2 ∧
      j2.status = JobStatus.failed ∧ j2.progress = 0 ∧ j2.progress ≠ 100 ∧
      j2.output_file_id = j.output_file_id ∧
      j2.error_message = (if msg = "" then none else some msg) := by
  have hj1 : findJob (update_job_status db now jid "processing" 10 none none) jid =
      some (applyUpdate now JobStatus.processing 10 none none j) := by
    rw [findJob_update _ now jid "processing" JobStatus.processing 10 none none rfl, hj]
    rfl
  simp only [merge_pdfs_task_run]
  constructor
  · rw [update_job_status_files, runAppendUpdates_files, update_job_status_files]
  · obtain ⟨jk, hjk, hek, hok, hsk, hseck⟩ :=
      runAppendUpdates_findJob _ now jid _ _ _ hj1
    refine ⟨applyUpdate now JobStatus.failed 0 none (some msg) jk, ?_, ?_, ?_, ?_, ?_, ?_⟩
    · rw [findJob_update _ now jid "failed" JobStatus.failed 0 none (some msg) rfl, hjk]
      rfl
    · exact applyUpdate_status now JobStatus.failed 0 none (some msg) jk
    · exact applyUpdate_progress now JobStatus.failed 0 none (some msg) jk
    · rw [applyUpdate_progress]
      omega
    · rw [applyUpdate_output]
      rw [Option.none_or, hok, applyUpdate_output, Option.none_or]
    · rw [applyUpdate_error]
      have hkerr : jk.error_message = none := by
        rw [hek, applyUpdate_error]
        simpa [truthyStr] using herr
      by_cases hm : msg = ""
      · simp [truthyStr, hm, hkerr]
      · simp [truthyStr, hm]

/-- Claim C7, amended, witness:  The amended statement applied to a concrete
pending job and a failure with message `"boom"` after two steps. -/
theorem c7_amended_witness :
    (merge_pdfs_task_run exDBC1 3 3600 "job-1" ["f1", "f2"]
        (MergeOutcome.failAfter 2 "boom")).files = exDBC1.files ∧
    ∃ j2, findJob (merge_pdfs_task_run exDBC1 3 3600 "job-1" ["f1", "f2"]
        (MergeOutcome.failAfter 2 "boom")) "job-1" = some j2 ∧
      j2.status = JobStatus.failed ∧ j2.progress = 0 ∧ j2.progress ≠ 100 ∧
      j2.output_file_id = exJobC1.output_file_id ∧
      j2.error_message = (if "boom" = "" then none else some "boom") := by
  exact c7_amended exDBC1 3 3600 "job-1" ["f1", "f2"] 2 "boom" exJobC1 rfl rfl

/-! Section C8 — processing timestamps and derived duration -/

/-- Concrete output-file metadata for task runs. -/
def exMeta : OutputFileMeta :=
  { file_id := "f-new", filename := "merged.pdf", stored_filename := "merged.pdf",
    file_path := "/data/uploads/merged.pdf", file_size := 1000,
    mime_type := "application/pdf" }

/-- Claim C8, counterexample:  The dequeue write moves the fresh pending job
to `Processing`/10 but `processing_started_at` stays `None` (nothing in the
worker ever writes it), and after a full successful merge run the job is
`Completed` with `processing_started_at` and `processing_time_seconds`
still `None` — the claimed stamping and duration computation do not
happen. -/
theorem c8_counterexample :
    (findJob (update_job_status exDBC1 2 "job-1" "processing" 10 none none) "job-1").map
      (fun j => (j.status, j.progress, j.processing_started_at)) =
      some (JobStatus.processing, 10, (none : Option Int)) ∧
    (findJob (merge_pdfs_task_run exDBC1 2 3600 "job-1" []
        (MergeOutcome.success exMeta)) "job-1").map
      (fun j => (j.status, j.processing_started_at, j.processing_time_seconds)) =
      some (JobStatus.completed, (none : Option Int), (none : Option Int)) := by
  exact ⟨rfl, rfl⟩

/-- Claim C8, amended:  No worker write ever touches
`processing_started_at`: every `update_job_status` write preserves it, the
dequeue write sets only status/progress, and the completion write stamps
`processing_completed_at = now` and computes
`processing_time_seconds = now - started` *only when*
`processing_started_at` is already set — since no code path sets it, a
whole merge run (success or failure) leaves both `processing_started_at`
and `processing_time_seconds` unset when they start unset. -/
theorem c8_amended (now : Int) (p : Nat) (ofid : Option Nat) (err : Option String)
    (j : Job) :
    (∀ st, (applyUpdate now st p ofid err j).processing_started_at =
      j.processing_started_at) ∧
    (applyUpdate now JobStatus.processing p ofid err j).status = JobStatus.processing ∧
    (applyUpdate now JobStatus.processing p ofid err j).processing_completed_at =
      j.processing_completed_at ∧
    (applyUpdate now JobStatus.completed p ofid err j).processing_completed_at =
      some now ∧
    (applyUpdate now JobStatus.completed p ofid err j).processing_time_seconds =
      (match j.processing_started_at with
       | some t0 => some (now - t0)
       | none => j.processing_time_seconds) ∧
    (∀ (db : DB) (ttlE : Int) (jid : String) (fids : List String)
      (outcome : MergeOutcome) (j0 : Job), findJob db jid = some j0 →
      j0.processing_started_at = none → j0.processing_time_seconds = none →
      ∃ j1, findJob (merge_pdfs_task_run db now ttlE jid fids outcome) jid = some j1 ∧
        j1.processing_started_at = none ∧ j1.processing_time_seconds = none) := by
  refine ⟨fun st => applyUpdate_started now st p ofid err j,
    applyUpdate_status now JobStatus.processing p ofid err j, ?_, ?_, ?_, ?_⟩
  · rw [applyUpdate_completed_at]
    simp
  · rw [applyUpdate_completed_at]
    simp
  · rw [applyUpdate_seconds]
    simp
  · intro db ttlE jid fids outcome j0 hj0 hstart hsec
    have hj1 : findJob (update_job_status db now jid "processing" 10 none none) jid =
        some (applyUpdate now JobStatus.processing 10 none none j0) := by
      rw [findJob_update _ now jid "processing" JobStatus.processing 10 none none rfl, hj0]
      rfl
    have hst1 : (applyUpdate now JobStatus.processing 10 none none j0).processing_started_at
        = none := by
      rw [applyUpdate_started]
      exact hstart
    have hsec1 :
        (applyUpdate now JobStatus.processing 10 none none j0).processing_time_seconds
        = none := by
      rw [applyUpdate_seconds]
      simpa using hsec
    cases outcome with
    | failAfter k msg =>
      simp only [merge_pdfs_task_run]
      obtain ⟨jk, hjk, hek, hok, hsk, hseck⟩ :=
        runAppendUpdates_findJob _ now jid _ _ _ hj1
      refine ⟨applyUpdate now JobStatus.failed 0 none (some msg) jk, ?_, ?_, ?_⟩
      · rw [findJob_update _ now jid "failed" JobStatus.failed 0 none (some msg) rfl, hjk]
        rfl
      · rw [applyUpdate_started, hsk, hst1]
      · rw [applyUpdate_seconds]
        simpa using hseck.trans hsec1
    | success meta =>
      simp only [merge_pdfs_task_run]
      obtain ⟨jk, hjk, hek, hok, hsk, hseck⟩ :=
        runAppendUpdates_findJob _ now jid _ _ _ hj1
      obtain ⟨dbf, hcreate, hdbf⟩ := create_output_file_some _ now ttlE jid meta jk hjk
      rw [hcreate]
      have hjf : findJob dbf jid = some jk := by
        rw [findJob_congr hdbf]
        exact hjk
      dsimp only
      rw [findJob_update _ now jid "completed" JobStatus.completed 100 _ none rfl, hjf]
      refine ⟨_, rfl, ?_, ?_⟩
      · rw [applyUpdate_started, hsk, hst1]
      · rw [applyUpdate_seconds]
        have hskn : jk.processing_started_at = none := hsk.trans hst1
        simp [hskn]
        exact hseck.trans hsec1

/-- Claim C8, amended, witness:  The amended statement at concrete inputs:
the dequeue-shaped write preserves the unset start stamp, the
completion-shaped write stamps `processing_completed_at`, and a full
successful merge run leaves both start stamp and duration unset. -/
theorem c8_amended_witness :
    (applyUpdate 2 JobStatus.processing 10 none none exJobC1).processing_started_at =
      exJobC1.processing_started_at ∧
    (applyUpdate 2 JobStatus.completed 100 (some 1) none exJobC1).processing_completed_at =
      some 2 ∧
    ∃ j1, findJob (merge_pdfs_task_run exDBC1 2 3600 "job-1" []
        (MergeOutcome.success exMeta)) "job-1" = some j1 ∧
      j1.processing_started_at = none ∧ j1.processing_time_seconds = none := by
  have h1 := c8_amended 2 10 (none : Option Nat) (none : Option String) exJobC1
  have h2 := c8_amended 2 100 (some 1) (none : Option String) exJobC1
  exact ⟨h1.1 JobStatus.processing, h2.2.2.2.1,
    h1.2.2.2.2.2 exDBC1 3600 "job-1" [] (MergeOutcome.success exMeta) exJobC1 rfl rfl rfl⟩

/-! Section C10 — split fallthrough on non-pages requests -/

/-- Claim C10:  For a split job whose referenced file exists (and whose PDF
reads fine) but whose request has `split_type ≠ "pages"` or an
empty/absent `pages` list — in particular every `split_type="ranges"`
request — the task body skips the only branch that binds `output_file_id`,
line 136 raises `NameError`, and the handler finalizes the job as `Failed`
with the (non-empty) `NameError` text and creates no output file row. -/
theorem c10_split_fallthrough (db : DB) (now ttlE : Int) (jid fileId splitType : String)
    (pages : Option (List Nat)) (meta : OutputFileMeta) (j : Job)
    (hj : findJob db jid = some j)
    (hfile : get_file_paths db [fileId] ≠ [])
    (hbad : splitType ≠ "pages" ∨ truthyList pages = false) :
    (split_pdf_task_run db now ttlE jid fileId splitType pages meta).files = db.files ∧
    ∃ j2, findJob (split_pdf_task_run db now ttlE jid fileId splitType pages meta) jid =
        some j2 ∧
      j2.status = JobStatus.failed ∧ j2.progress = 0 ∧
      j2.error_message = some nameErrorMsg ∧
      j2.output_file_id = j.output_file_id ∧
      nameErrorMsg ≠ "" := by
  have hbadB : (splitType == "pages" && truthyList pages) = false := by
    rcases hbad with h | h
    · simp [h]
    · simp [h]
  have hpaths : get_file_paths (update_job_status db now jid "processing" 10 none none)
      [fileId] = get_file_paths db [fileId] := by
    unfold get_file_paths
    rw [update_job_status_files]
  have hj1 : findJob (update_job_status db now jid "processing" 10 none none) jid =
      some (applyUpdate now JobStatus.processing 10 none none j) := by
    rw [findJob_update _ now jid "processing" JobStatus.processing 10 none none rfl, hj]
    rfl
  rcases hl : get_file_paths db [fileId] with _ | ⟨p0, ps⟩
  · exact absurd hl hfile
  · have hgp := hpaths.trans hl
    simp only [split_pdf_task_run]
    rw [hgp]
    simp only [hbadB, Bool.false_eq_true, if_false]
    constructor
    · rw [update_job_status_files, update_job_status_files]
    · refine ⟨applyUpdate now JobStatus.failed 0 none (some nameErrorMsg)
        (applyUpdate now JobStatus.processing 10 none none j), ?_, ?_, ?_, ?_, ?_, ?_⟩
      · rw [findJob_update _ now jid "failed" JobStatus.failed 0 none
          (some nameErrorMsg) rfl, hj1]
        rfl
      · exact applyUpdate_status _ _ _ _ _ _
      · exact applyUpdate_progress _ _ _ _ _ _
      · rw [applyUpdate_error]
        simp [truthyStr, nameErrorMsg]
      · rw [applyUpdate_output, Option.none_or, applyUpdate_output, Option.none_or]
      · intro habs
        simp [nameErrorMsg] at habs

/-- Claim C10, witness:  A concrete `ranges`-mode split of an existing file:
the job ends `Failed` with the `NameError` text and the files table is
unchanged. -/
theorem c10_split_fallthrough_witness :
    (split_pdf_task_run exDBC3 4 3600 "job-3" "f-out" "ranges" none exMeta).files =
      exDBC3.files ∧
    ∃ j2, findJob (split_pdf_task_run exDBC3 4 3600 "job-3" "f-out" "ranges" none exMeta)
        "job-3" = some j2 ∧
      j2.status = JobStatus.failed ∧ j2.progress = 0 ∧
      j2.error_message = some nameErrorMsg ∧
      j2.output_file_id = exJobC3.output_file_id ∧
      nameErrorMsg ≠ "" := by
  exact c10_split_fallthrough exDBC3 4 3600 "job-3" "f-out" "ranges" none exMeta exJobC3
    rfl (by decide) (Or.inl (by decide))


/-! Section C9 — history contract -/

theorem jobDescOrder_trans : ∀ (a b c : Job),
    jobDescOrder a b → jobDescOrder b c → jobDescOrder a c := by
  intro a b c hab hbc
  simp only [jobDescOrder, decide_eq_true_eq] at *
  omega

theorem jobDescOrder_total : ∀ (a b : Job), jobDescOrder a b || jobDescOrder b a := by
  intro a b
  simp only [jobDescOrder, Bool.or_eq_true, decide_eq_true_eq]
  omega

/-- Claim C9:  For every presented owner, `page ≥ 1` and `page_size`, the
history result satisfies the claimed contract: `total` counts all of the
owner-filtered jobs; at most `page_size` jobs are returned; each returned
job passes the owner filter; the returned jobs are in non-increasing
creation-time order, and are exactly the window
`[(page-1)*page_size, (page-1)*page_size + page_size)` of a
descending-sorted permutation of the owner's jobs; and `has_more` holds
exactly when the offset plus the number returned is less than `total`. -/
theorem c9_history_contract (db : DB) (g : Option String) (u : Option Nat)
    (page ps : Nat) (hp : 1 ≤ page) :
    (get_job_history db g u page ps).total =
      (db.jobs.filter (jobOwnerFilter g u)).length ∧
    (get_job_history db g u page ps).jobs.length ≤ ps ∧
    (∀ j ∈ (get_job_history db g u page ps).jobs, jobOwnerFilter g u j = true) ∧
    List.Pairwise (fun a b => jobDescOrder a b = true)
      (get_job_history db g u page ps).jobs ∧
    (∃ l : List Job, l.Perm (db.jobs.filter (jobOwnerFilter g u)) ∧
      List.Pairwise (fun a b => jobDescOrder a b = true) l ∧
      (get_job_history db g u page ps).jobs = (l.drop ((page - 1) * ps)).take ps) ∧
    ((get_job_history db g u page ps).has_more = true ↔
      (page - 1) * ps + (get_job_history db g u page ps).jobs.length <
        (get_job_history db g u page ps).total) ∧
    (get_job_history db g u page ps).page = page ∧
    (get_job_history db g u page ps).page_size = ps := by
  have hsorted : List.Pairwise (fun a b => jobDescOrder a b = true)
      ((db.jobs.filter (jobOwnerFilter g u)).mergeSort jobDescOrder) :=
    List.sorted_mergeSort jobDescOrder_trans jobDescOrder_total
      (db.jobs.filter (jobOwnerFilter g u))
  have hsub : (get_job_history db g u page ps).jobs.Sublist
      ((db.jobs.filter (jobOwnerFilter g u)).mergeSort jobDescOrder) := by
    simp only [get_job_history]
    exact (List.take_sublist _ _).trans (List.drop_sublist _ _)
  refine ⟨?_, ?_, ?_, ?_, ?_, ?_, rfl, rfl⟩
  · simp only [get_job_history]
    exact List.length_mergeSort _
  · simp only [get_job_history]
    exact (List.length_take_le _ _)
  · intro j hj
    have hmem : j ∈ (db.jobs.filter (jobOwnerFilter g u)).mergeSort jobDescOrder :=
      hsub.mem hj
    rw [List.mem_mergeSort] at hmem
    exact (List.mem_filter.mp hmem).2
  · exact hsorted.sublist hsub
  · exact ⟨(db.jobs.filter (jobOwnerFilter g u)).mergeSort jobDescOrder,
      List.mergeSort_perm _ _, hsorted, rfl⟩
  · simp only [get_job_history]
    exact decide_eq_true_iff

/-- Two guest jobs with distinct creation times, for the history witness. -/
def exJobH1 : Job := { exJobC1 with job_id := "h-1", created_at := 1 }

def exJobH2 : Job := { exJobC1 with job_id := "h-2", created_at := 2 }

def exDBC9 : DB := { jobs := [exJobH1, exJobH2], files := [] }

/-- Claim C9, witness:  The contract applied to a concrete two-job history at
`page = 1`, `page_size = 1`: the total is 2, at most one job is returned,
and `has_more` is reported. -/
theorem c9_history_contract_witness :
    (get_job_history exDBC9 (some "guest-A") none 1 1).total = 2 ∧
    (get_job_history exDBC9 (some "guest-A") none 1 1).jobs.length ≤ 1 ∧
    (get_job_history exDBC9 (some "guest-A") none 1 1).has_more = true := by
  have h := c9_history_contract exDBC9 (some "guest-A") none 1 1 (by decide)
  refine ⟨?_, h.2.1, ?_⟩
  · rw [h.1]
    rfl
  · refine (h.2.2.2.2.2.1).mpr ?_
    obtain ⟨l, hperm, hsort, hjobs⟩ := h.2.2.2.2.1
    have hlen : l.length = 2 := by
      rw [hperm.length_eq]
      rfl
    have hflen : (exDBC9.jobs.filter (jobOwnerFilter (some "guest-A") none)).length = 2 :=
      rfl
    rw [h.1, hjobs, hflen]
    simp [List.length_take, List.length_drop, hlen]

end PdfCombiner
